import Mathlib

/-!
Shallow embedding of the yarpc-go tracing interceptor
(`internal/tracinginterceptor`): span model, error taxonomy, the two
span-tag classifiers, the six interceptor entry points of
`interceptor.go` (namespace `V1`) and the pooled-response-writer variant
(namespace `V2`), together with theorems checking the natural-language
specification against the code.
-/

namespace YarpcTracing

/-- A value an OpenTracing span tag can take in this development:
strings (`span.SetTag(k, s)`) and booleans (`ext.Error.Set(span, b)`). -/
inductive TagValue
  | str (s : String)
  | boolean (b : Bool)
deriving DecidableEq, Repr

/-- Modelled from the spec: an opentracing `SpanContext` is an opaque
reference to trace identifiers; we give it a numeric identity. -/
structure SpanContext where
  id : Nat
deriving DecidableEq, Repr

/-- A span as observed through the operations the interceptor performs on
it: `SetTag`, `ext.Error.Set`, `LogFields`, `Finish`, plus the parent
relationship fixed at start time. `finishCount` counts `Finish` calls so
the finished-exactly-once invariant is statable. -/
structure Span where
  parent : Option SpanContext
  context : SpanContext
  tags : List (String × TagValue)
  logs : List (String × String)
  finishCount : Nat
deriving DecidableEq, Repr

/-- `span.SetTag(key, value)` for a string value. -/
def Span.setTag (s : Span) (key : String) (value : TagValue) : Span :=
  { s with tags := s.tags ++ [(key, value)] }

/-- `ext.Error.Set(span, b)`: sets the standard boolean `error` tag. -/
def extErrorSet (s : Span) (b : Bool) : Span :=
  s.setTag "error" (TagValue.boolean b)

/-- `span.LogFields(log.String(k1,v1), ...)`: appends log fields. -/
def Span.logFields (s : Span) (fields : List (String × String)) : Span :=
  { s with logs := s.logs ++ fields }

/-- `span.Finish()`. -/
def Span.finish (s : Span) : Span :=
  { s with finishCount := s.finishCount + 1 }

/-- Modelled from the spec: a `yarpcerrors` status code, identified by the
string form `Code().String()` used for the span tags. -/
structure Code where
  name : String
deriving DecidableEq, Repr

/-- `Code.String()`. -/
def Code.string (c : Code) : String := c.name

/-- Modelled from the spec: a Go error reaching the classifier is either a
structured `yarpcerrors` status (machine-readable code) or a raw,
unrecognized error. -/
inductive GoError
  | status (code : Code) (msg : String)
  | raw (msg : String)
deriving DecidableEq, Repr

/-- `err.Error()`: the message of the error. -/
def GoError.message : GoError → String
  | .status _ msg => msg
  | .raw msg => msg

/-- Modelled from the spec: `yarpcerrors.IsStatus(err)` — whether the
(possibly nil) error carries a structured status. -/
def yarpcIsStatus : Option GoError → Bool
  | some (.status _ _) => true
  | _ => false

/-- Modelled from the spec: `yarpcerrors.FromError(err).Code()` — the code
of a structured status; non-status errors map to the unknown code (only
reached under a `yarpcIsStatus` guard in the interceptor). -/
def yarpcFromErrorCode : Option GoError → Code
  | some (.status c _) => c
  | _ => Code.mk "unknown"

/-- `*transport.Response` as far as the classifier reads it: the
application-error flag. -/
structure Response where
  applicationError : Bool
deriving DecidableEq, Repr

/-- `updateSpanWithError` (identical in `interceptor.go` and the pooled
variant): early return on nil error; otherwise set `error=true`, then
either both status tags (structured status) or the
`unknown_internal_yarpc` sentinel. Returns the updated span and the error
value returned to the caller. -/
def updateSpanWithError (span : Span) (err : Option GoError) :
    Span × Option GoError :=
  if err = none then (span, err)
  else
    let span := extErrorSet span true
    if yarpcIsStatus err then
      let errCode := yarpcFromErrorCode err
      let span := span.setTag "rpc.yarpc.status_code" (TagValue.str errCode.string)
      let span := span.setTag "error.type" (TagValue.str errCode.string)
      (span, err)
    else
      (span.setTag "error.type" (TagValue.str "unknown_internal_yarpc"), err)

/-- `updateSpanWithOutboundError` (identical in both files): success path
when no error and no application-error flag; otherwise `error=true`, then
status tags, else `application_error`, else the sentinel. -/
def updateSpanWithOutboundError (span : Span) (res : Option Response)
    (err : Option GoError) : Span × Option GoError :=
  let isApplicationError :=
    match res with
    | none => false
    | some r => r.applicationError
  if err = none ∧ isApplicationError = false then (span, err)
  else
    let span := extErrorSet span true
    if yarpcIsStatus err then
      let errCode := yarpcFromErrorCode err
      let span := span.setTag "rpc.yarpc.status_code" (TagValue.str errCode.string)
      let span := span.setTag "error.type" (TagValue.str errCode.string)
      (span, err)
    else if isApplicationError then
      (span.setTag "error.type" (TagValue.str "application_error"), err)
    else
      (span.setTag "error.type" (TagValue.str "unknown_internal_yarpc"), err)

/-- Modelled from the spec: an OpenTracing propagation format; the carrier
adapter selects one per transport identifier. -/
inductive Format
  | httpHeaders
  | textMap
deriving DecidableEq, Repr

/-- Modelled from the spec: `transport.GetPropagationFormat(transport)` —
a pure, total selection of a propagation format per transport name, with a
defined default for unrecognized names. -/
def getPropagationFormat (transportName : String) : Format :=
  if transportName = "tchannel" then Format.textMap else Format.httpHeaders

/-- Modelled from the spec: a carrier wraps a header collection together
with the transport identifier (`GetPropagationCarrier(items, transport)`). -/
structure Carrier where
  items : List (String × String)
  transport : String
deriving DecidableEq, Repr

/-- Modelled from the spec: `transport.GetPropagationCarrier`. -/
def getPropagationCarrier (items : List (String × String))
    (transportName : String) : Carrier :=
  { items := items, transport := transportName }

/-- The tracing provider as the interceptor uses it: `Extract` yields a
parent span context or none (its error is discarded by the interceptor),
`Inject` writes headers into the carrier and may fail, and a fresh span
context is produced per started span. -/
structure Tracer where
  extract : Format → Carrier → Option SpanContext
  inject : SpanContext → Format → Carrier → List (String × String) × Option GoError
  newContext : SpanContext

/-- `transport.Request` as far as the interceptor reads it. -/
structure Request where
  headers : List (String × String)
  transport : String
deriving DecidableEq, Repr

/-- Modelled from the spec: `Headers.With(k, v)` — non-destructive update
of the header collection. -/
def headersWith (hs : List (String × String)) (k v : String) :
    List (String × String) :=
  hs ++ [(k, v)]

/-- Merging injected tracing headers into a request's headers
(`for k, v := range tracingHeaders { req.Headers = req.Headers.With(k, v) }`). -/
def headersWithAll (hs : List (String × String))
    (added : List (String × String)) : List (String × String) :=
  added.foldl (fun acc kv => headersWith acc kv.1 kv.2) hs

/-- `transport.RequestMeta` of a stream request. -/
structure RequestMeta where
  headers : List (String × String)
  transport : String
deriving DecidableEq, Repr

/-- `meta.ToRequest()`. -/
def RequestMeta.toRequest (m : RequestMeta) : Request :=
  { headers := m.headers, transport := m.transport }

/-- `transport.StreamRequest`. -/
structure StreamRequest where
  meta : RequestMeta
deriving DecidableEq, Repr

/-- `transport.ServerStream` as far as the inbound stream path reads it:
`s.Request()` yields the stream request. -/
structure ServerStream where
  req : StreamRequest
deriving DecidableEq, Repr

/-- `transport.Ack` returned by oneway outbounds (opaque). -/
structure Ack where
  id : Nat
deriving DecidableEq, Repr

/-- `transport.ClientStream` returned by stream outbounds (opaque). -/
structure ClientStream where
  id : Nat
deriving DecidableEq, Repr

/-- Modelled from the spec: `transport.ExtractOpenTracingSpan.Do` — start a
server-side span as a child of the extracted parent (or a root span when
the parent is absent), stamping the transport name and the static extra
tags; never returns a nil span. -/
def extractOpenTracingSpanDo (tracer : Tracer) (parent : Option SpanContext)
    (transportName : String) (extraTags : List (String × TagValue)) : Span :=
  { parent := parent
    context := tracer.newContext
    tags := extraTags ++ [("transport", TagValue.str transportName)]
    logs := []
    finishCount := 0 }

/-- Modelled from the spec: `transport.CreateOpenTracingSpan.Do` — start a
client-side span with no parent extraction, stamping the transport name
and the static extra tags; never returns a nil span. -/
def createOpenTracingSpanDo (tracer : Tracer) (transportName : String)
    (extraTags : List (String × TagValue)) : Span :=
  { parent := none
    context := tracer.newContext
    tags := extraTags ++ [("transport", TagValue.str transportName)]
    logs := []
    finishCount := 0 }

/-- `Params` for constructing the interceptor; the `Tracer` field is a Go
interface value and may be nil. -/
structure Params where
  tracer : Option Tracer
  transport : String

/-- The `Interceptor` struct: tracer, transport name and propagation
format, all immutable after construction. -/
structure Interceptor where
  tracer : Option Tracer
  transport : String
  propagationFormat : Format

/-- `New(p)`: store the configured tracer, transport and propagation
format; if the tracer is nil, fall back to the process-wide global tracer
(`opentracing.GlobalTracer()`, passed here explicitly since it is
process-wide state). -/
def New (p : Params) (globalTracer : Tracer) : Interceptor :=
  let m : Interceptor :=
    { tracer := p.tracer
      transport := p.transport
      propagationFormat := getPropagationFormat p.transport }
  if m.tracer.isNone then { m with tracer := some globalTracer } else m

namespace V1

/-- Outcome of `Interceptor.Call` (outbound unary): the finished span, the
response and error returned to the caller, and whether the downstream
outbound call was invoked. -/
structure CallOutcome where
  span : Span
  res : Option Response
  err : Option GoError
  downstreamInvoked : Bool
deriving DecidableEq, Repr

/-- Outcome of `Interceptor.CallOneway`. -/
structure OnewayOutcome where
  span : Span
  ack : Option Ack
  err : Option GoError
  downstreamInvoked : Bool
deriving DecidableEq, Repr

/-- Outcome of `Interceptor.CallStream`. -/
structure StreamOutcome where
  span : Span
  stream : Option ClientStream
  err : Option GoError
  downstreamInvoked : Bool
deriving DecidableEq, Repr

/-- `Interceptor.Handle` (inbound unary, `interceptor.go`): extract the
parent context (extraction errors discarded), start a server span, run the
handler, classify the outcome, finish the span (deferred, so it runs after
classification on every path). A nil tracer (impossible after `New`) gives
`none`, the panic of calling through a nil interface. -/
def Handle (m : Interceptor) (req : Request)
    (h : Request → Option GoError) : Option (Span × Option GoError) :=
  match m.tracer with
  | none => none
  | some tracer =>
    let parentSpanCtx :=
      tracer.extract m.propagationFormat
        (getPropagationCarrier req.headers req.transport)
    let span := extractOpenTracingSpanDo tracer parentSpanCtx req.transport []
    let err := h req
    let (span, ret) := updateSpanWithError span err
    some (span.finish, ret)

/-- `Interceptor.Call` (outbound unary, `interceptor.go`): create a client
span, inject its context into a fresh carrier; on injection failure mark
the span errored, log, finish, and return the injection error without
invoking the outbound; otherwise merge headers, invoke the outbound and
classify with the outbound classifier. -/
def Call (m : Interceptor) (req : Request)
    (out : Request → Option Response × Option GoError) : Option CallOutcome :=
  match m.tracer with
  | none => none
  | some tracer =>
    let span := createOpenTracingSpanDo tracer m.transport []
    let injected :=
      tracer.inject span.context m.propagationFormat
        (getPropagationCarrier [] m.transport)
    match injected.2 with
    | some injErr =>
      let span := extErrorSet span true
      let span := span.logFields [("event", "error"), ("message", injErr.message)]
      some { span := span.finish, res := none, err := some injErr
             downstreamInvoked := false }
    | none =>
      let req := { req with headers := headersWithAll req.headers injected.1 }
      let (res, err) := out req
      let (span, ret) := updateSpanWithOutboundError span res err
      some { span := span.finish, res := res, err := ret
             downstreamInvoked := true }

/-- `Interceptor.HandleOneway` (inbound oneway, `interceptor.go`): same
shape as `Handle`. -/
def HandleOneway (m : Interceptor) (req : Request)
    (h : Request → Option GoError) : Option (Span × Option GoError) :=
  match m.tracer with
  | none => none
  | some tracer =>
    let parentSpanCtx :=
      tracer.extract m.propagationFormat
        (getPropagationCarrier req.headers req.transport)
    let span := extractOpenTracingSpanDo tracer parentSpanCtx req.transport []
    let err := h req
    let (span, ret) := updateSpanWithError span err
    some (span.finish, ret)

/-- `Interceptor.CallOneway` (outbound oneway, `interceptor.go`): same
injection short-circuit as `Call`; the outcome is classified with
`updateSpanWithError` (there is no response flag). -/
def CallOneway (m : Interceptor) (req : Request)
    (out : Request → Option Ack × Option GoError) : Option OnewayOutcome :=
  match m.tracer with
  | none => none
  | some tracer =>
    let span := createOpenTracingSpanDo tracer m.transport []
    let injected :=
      tracer.inject span.context m.propagationFormat
        (getPropagationCarrier [] m.transport)
    match injected.2 with
    | some injErr =>
      let span := extErrorSet span true
      let span := span.logFields [("event", "error"), ("message", injErr.message)]
      some { span := span.finish, ack := none, err := some injErr
             downstreamInvoked := false }
    | none =>
      let req := { req with headers := headersWithAll req.headers injected.1 }
      let (ack, err) := out req
      let (span, ret) := updateSpanWithError span err
      some { span := span.finish, ack := ack, err := ret
             downstreamInvoked := true }

/-- `Interceptor.HandleStream` (inbound stream, `interceptor.go`): extract
from the stream request's meta headers, start a server span, run the
stream handler once, classify, finish. -/
def HandleStream (m : Interceptor) (s : ServerStream)
    (h : ServerStream → Option GoError) : Option (Span × Option GoError) :=
  match m.tracer with
  | none => none
  | some tracer =>
    let meta := s.req.meta
    let parentSpanCtx :=
      tracer.extract m.propagationFormat
        (getPropagationCarrier meta.headers meta.transport)
    let span := extractOpenTracingSpanDo tracer parentSpanCtx meta.transport []
    let err := h s
    let (span, ret) := updateSpanWithError span err
    some (span.finish, ret)

/-- `Interceptor.CallStream` (outbound stream, `interceptor.go`): same
injection short-circuit as `Call`; headers merge into the request meta;
classified with `updateSpanWithError`. -/
def CallStream (m : Interceptor) (req : StreamRequest)
    (out : StreamRequest → Option ClientStream × Option GoError) :
    Option StreamOutcome :=
  match m.tracer with
  | none => none
  | some tracer =>
    let span := createOpenTracingSpanDo tracer m.transport []
    let injected :=
      tracer.inject span.context m.propagationFormat
        (getPropagationCarrier [] m.transport)
    match injected.2 with
    | some injErr =>
      let span := extErrorSet span true
      let span := span.logFields [("event", "error"), ("message", injErr.message)]
      some { span := span.finish, stream := none, err := some injErr
             downstreamInvoked := false }
    | none =>
      let req :=
        { req with meta :=
            { req.meta with
                headers := headersWithAll req.meta.headers injected.1 } }
      let (clientStream, err) := out req
      let (span, ret) := updateSpanWithError span err
      some { span := span.finish, stream := clientStream, err := ret
             downstreamInvoked := true }

end V1

namespace V2

/-- Modelled from the spec: `CommonTracingTags`, the static extra tags the
pooled-writer variant stamps on every span it starts. -/
def CommonTracingTags : List (String × TagValue) :=
  [("component", TagValue.str "yarpc-go")]

/-- The underlying `transport.ResponseWriter` as far as the wrapper
forwards to it; `supportsAppErrMeta` models whether the writer also
implements `transport.ApplicationErrorMetaSetter`. -/
structure ResponseWriter where
  supportsAppErrMeta : Bool
  appError : Bool
  appErrMeta : Option String
  written : Nat
deriving DecidableEq, Repr

/-- `ResponseWriter.SetApplicationError()` on the underlying writer. -/
def ResponseWriter.setApplicationError (rw : ResponseWriter) : ResponseWriter :=
  { rw with appError := true }

/-- `ApplicationErrorMetaSetter.SetApplicationErrorMeta(meta)` on the
underlying writer (only reachable when it supports the capability). -/
def ResponseWriter.setApplicationErrorMeta (rw : ResponseWriter)
    (meta : String) : ResponseWriter :=
  { rw with appErrMeta := some meta }

/-- `ResponseWriter.Write(p)` on the underlying writer (payload passes
through unchanged; we track the byte count). -/
def ResponseWriter.writeBytes (rw : ResponseWriter) (n : Nat) : ResponseWriter :=
  { rw with written := rw.written + n }

/-- The pooled `writer` wrapper: the wrapped response writer plus the
per-call observation state. -/
structure Writer where
  responseWriter : ResponseWriter
  isApplicationError : Bool
  applicationErrorMeta : Option String
  responseSize : Nat
deriving DecidableEq, Repr

/-- `newWriter(rw)`: take a writer from `_writerPool` (or allocate a fresh
one when the pool is empty) and reset it with
`*w = writer{ResponseWriter: rw}`, which overwrites every field with its
zero value apart from the wrapped writer. -/
def newWriter (pool : List Writer) (rw : ResponseWriter) :
    Writer × List Writer :=
  match pool with
  | [] =>
    ({ responseWriter := rw, isApplicationError := false
       applicationErrorMeta := none, responseSize := 0 }, [])
  | _ :: rest =>
    ({ responseWriter := rw, isApplicationError := false
       applicationErrorMeta := none, responseSize := 0 }, rest)

/-- `writer.SetApplicationError()`: record the flag and forward. -/
def Writer.setApplicationError (w : Writer) : Writer :=
  { w with isApplicationError := true
           responseWriter := w.responseWriter.setApplicationError }

/-- `writer.SetApplicationErrorMeta(meta)`: nil meta is ignored; otherwise
record it and forward it when the underlying writer supports the
capability. -/
def Writer.setApplicationErrorMeta (w : Writer) (meta : Option String) :
    Writer :=
  match meta with
  | none => w
  | some m =>
    let w := { w with applicationErrorMeta := some m }
    if w.responseWriter.supportsAppErrMeta then
      { w with responseWriter := w.responseWriter.setApplicationErrorMeta m }
    else
      w

/-- `writer.Write(p)`: accumulate the byte count and pass through. -/
def Writer.writeBytes (w : Writer) (n : Nat) : Writer :=
  { w with responseSize := w.responseSize + n
           responseWriter := w.responseWriter.writeBytes n }

/-- `writer.free()`: return the instance to `_writerPool`. -/
def Writer.free (w : Writer) (pool : List Writer) : List Writer :=
  w :: pool

/-- One call the handler makes on the wrapped response writer. -/
inductive WriterAction
  | setApplicationError
  | setApplicationErrorMeta (meta : Option String)
  | write (n : Nat)
deriving DecidableEq, Repr

/-- Interpretation of the handler's calls on the wrapped writer, in
order. -/
def applyActions (w : Writer) : List WriterAction → Writer
  | [] => w
  | WriterAction.setApplicationError :: rest =>
    applyActions w.setApplicationError rest
  | WriterAction.setApplicationErrorMeta meta :: rest =>
    applyActions (w.setApplicationErrorMeta meta) rest
  | WriterAction.write n :: rest =>
    applyActions (w.writeBytes n) rest

/-- `Interceptor.Handle` (inbound unary, pooled-writer variant): start a
server span with the common tags, wrap the response writer in a pooled
`writer`, run the handler (its writer calls given by `h`, its returned
error by `herr`), tag `error.type=application_error` when the handler
signalled an application error, free the writer, classify the error and
finish the span. Returns the finished span, the returned error, and the
resulting pool. -/
def Handle (m : Interceptor) (req : Request) (resw : ResponseWriter)
    (h : Request → List WriterAction) (herr : Request → Option GoError)
    (pool : List Writer) :
    Option (Span × Option GoError × List Writer) :=
  match m.tracer with
  | none => none
  | some tracer =>
    let parentSpanCtx :=
      tracer.extract m.propagationFormat
        (getPropagationCarrier req.headers req.transport)
    let span :=
      extractOpenTracingSpanDo tracer parentSpanCtx req.transport
        CommonTracingTags
    let acquired := newWriter pool resw
    let wrappedWriter := applyActions acquired.1 (h req)
    let err := herr req
    let span :=
      if wrappedWriter.isApplicationError then
        span.setTag "error.type" (TagValue.str "application_error")
      else span
    let pool := wrappedWriter.free acquired.2
    let (span, ret) := updateSpanWithError span err
    some (span.finish, ret, pool)

/-- `Interceptor.Call` (outbound unary, pooled-writer variant): identical
to the `interceptor.go` version apart from stamping the common tags. -/
def Call (m : Interceptor) (req : Request)
    (out : Request → Option Response × Option GoError) :
    Option V1.CallOutcome :=
  match m.tracer with
  | none => none
  | some tracer =>
    let span := createOpenTracingSpanDo tracer m.transport CommonTracingTags
    let injected :=
      tracer.inject span.context m.propagationFormat
        (getPropagationCarrier [] m.transport)
    match injected.2 with
    | some injErr =>
      let span := extErrorSet span true
      let span := span.logFields [("event", "error"), ("message", injErr.message)]
      some { span := span.finish, res := none, err := some injErr
             downstreamInvoked := false }
    | none =>
      let req := { req with headers := headersWithAll req.headers injected.1 }
      let (res, err) := out req
      let (span, ret) := updateSpanWithOutboundError span res err
      some { span := span.finish, res := res, err := ret
             downstreamInvoked := true }

end V2

/-! Concrete fixtures used by witnesses and counterexamples. -/

/-- A tracer whose extraction finds a parent and whose injection always
succeeds, writing one tracing header. -/
def tracerOK : Tracer :=
  { extract := fun _ _ => some ⟨7⟩
    inject := fun _ _ _ => ([("uber-trace-id", "abc")], none)
    newContext := ⟨1⟩ }

/-- A tracer whose injection always fails with a raw error. -/
def tracerInjFail : Tracer :=
  { extract := fun _ _ => none
    inject := fun _ _ _ => ([], some (GoError.raw "inject fail"))
    newContext := ⟨2⟩ }

/-- A tracer that finds no parent context (forces root spans) and injects
successfully. -/
def tracerNoParent : Tracer :=
  { extract := fun _ _ => none
    inject := fun _ _ _ => ([], none)
    newContext := ⟨3⟩ }

/-- Interceptor built over `tracerOK`. -/
def mOK : Interceptor := New { tracer := some tracerOK, transport := "http" } tracerOK

/-- Interceptor built over `tracerInjFail`. -/
def mInjFail : Interceptor :=
  New { tracer := some tracerInjFail, transport := "http" } tracerInjFail

/-- Interceptor built over `tracerNoParent`. -/
def mNoParent : Interceptor :=
  New { tracer := some tracerNoParent, transport := "http" } tracerNoParent

/-- A concrete request. -/
def req0 : Request := { headers := [("h", "v")], transport := "http" }

/-- A concrete server stream. -/
def sstream0 : ServerStream :=
  { req := { meta := { headers := [("h", "v")], transport := "http" } } }

/-- A concrete stream request. -/
def sreq0 : StreamRequest :=
  { meta := { headers := [("h", "v")], transport := "http" } }

/-- A concrete structured-status code. -/
def code0 : Code := { name := "internal" }

/-- A handler that fails with a structured status. -/
def hStatus : Request → Option GoError :=
  fun _ => some (GoError.status code0 "boom")

/-- A stream handler that fails with a structured status. -/
def hStatusStream : ServerStream → Option GoError :=
  fun _ => some (GoError.status code0 "boom")

/-- A handler that succeeds. -/
def hNone : Request → Option GoError := fun _ => none

/-- A unary outbound that fails with a structured status. -/
def outStatus : Request → Option Response × Option GoError :=
  fun _ => (none, some (GoError.status code0 "boom"))

/-- A unary outbound that fails with a raw error while the response flags
an application error. -/
def outRawApp : Request → Option Response × Option GoError :=
  fun _ => (some { applicationError := true }, some (GoError.raw "boom"))

/-- A unary outbound that fails with a raw error and no response. -/
def outRaw : Request → Option Response × Option GoError :=
  fun _ => (none, some (GoError.raw "boom"))

/-- A unary outbound that succeeds with the application-error flag set. -/
def outAppErr : Request → Option Response × Option GoError :=
  fun _ => (some { applicationError := true }, none)

/-- A unary outbound that succeeds plainly. -/
def outOK : Request → Option Response × Option GoError :=
  fun _ => (some { applicationError := false }, none)

/-- A oneway outbound that fails with a structured status. -/
def outOnewayStatus : Request → Option Ack × Option GoError :=
  fun _ => (none, some (GoError.status code0 "boom"))

/-- A oneway outbound that succeeds. -/
def outOnewayOK : Request → Option Ack × Option GoError :=
  fun _ => (some ⟨0⟩, none)

/-- A stream outbound that fails with a structured status. -/
def outStreamStatus : StreamRequest → Option ClientStream × Option GoError :=
  fun _ => (none, some (GoError.status code0 "boom"))

/-- A stream outbound that succeeds. -/
def outStreamOK : StreamRequest → Option ClientStream × Option GoError :=
  fun _ => (some ⟨0⟩, none)

/-- A concrete underlying response writer. -/
def resw0 : V2.ResponseWriter :=
  { supportsAppErrMeta := true, appError := false, appErrMeta := none
    written := 0 }

/-- Handler writer actions: mark an application error then write. -/
def hActsAppErr : Request → List V2.WriterAction :=
  fun _ => [V2.WriterAction.setApplicationError, V2.WriterAction.write 5]

/-! Equation lemmas for the classifiers. -/

/-- Tag triple demanded for a structured-status outcome. -/
def statusTagged (s : Span) (c : Code) : Prop :=
  ("error", TagValue.boolean true) ∈ s.tags ∧
  ("rpc.yarpc.status_code", TagValue.str c.string) ∈ s.tags ∧
  ("error.type", TagValue.str c.string) ∈ s.tags

theorem updateSpanWithError_none (s : Span) :
    updateSpanWithError s none = (s, none) := rfl

theorem updateSpanWithError_status (s : Span) (c : Code) (msg : String) :
    updateSpanWithError s (some (GoError.status c msg)) =
      (((extErrorSet s true).setTag "rpc.yarpc.status_code"
          (TagValue.str c.string)).setTag "error.type" (TagValue.str c.string),
       some (GoError.status c msg)) := rfl

theorem updateSpanWithError_raw (s : Span) (msg : String) :
    updateSpanWithError s (some (GoError.raw msg)) =
      ((extErrorSet s true).setTag "error.type"
         (TagValue.str "unknown_internal_yarpc"),
       some (GoError.raw msg)) := rfl

theorem updateSpanWithError_snd (s : Span) (err : Option GoError) :
    (updateSpanWithError s err).2 = err := by
  cases err with
  | none => rfl
  | some e => cases e <;> rfl

theorem updateSpanWithOutboundError_status (s : Span) (res : Option Response)
    (c : Code) (msg : String) :
    updateSpanWithOutboundError s res (some (GoError.status c msg)) =
      (((extErrorSet s true).setTag "rpc.yarpc.status_code"
          (TagValue.str c.string)).setTag "error.type" (TagValue.str c.string),
       some (GoError.status c msg)) := rfl

theorem updateSpanWithOutboundError_raw_none (s : Span) (msg : String) :
    updateSpanWithOutboundError s none (some (GoError.raw msg)) =
      ((extErrorSet s true).setTag "error.type"
         (TagValue.str "unknown_internal_yarpc"),
       some (GoError.raw msg)) := rfl

theorem updateSpanWithOutboundError_raw_noflag (s : Span) (r : Response)
    (msg : String) (hr : r.applicationError = false) :
    updateSpanWithOutboundError s (some r) (some (GoError.raw msg)) =
      ((extErrorSet s true).setTag "error.type"
         (TagValue.str "unknown_internal_yarpc"),
       some (GoError.raw msg)) := by
  simp [updateSpanWithOutboundError, hr, yarpcIsStatus]

theorem updateSpanWithOutboundError_raw_flag (s : Span) (r : Response)
    (msg : String) (hr : r.applicationError = true) :
    updateSpanWithOutboundError s (some r) (some (GoError.raw msg)) =
      ((extErrorSet s true).setTag "error.type" (TagValue.str "application_error"),
       some (GoError.raw msg)) := by
  simp [updateSpanWithOutboundError, hr, yarpcIsStatus]

theorem updateSpanWithOutboundError_ok_flag (s : Span) (r : Response)
    (hr : r.applicationError = true) :
    updateSpanWithOutboundError s (some r) none =
      ((extErrorSet s true).setTag "error.type" (TagValue.str "application_error"),
       none) := by
  simp [updateSpanWithOutboundError, hr, yarpcIsStatus]

theorem updateSpanWithOutboundError_ok_noflag (s : Span) (r : Response)
    (hr : r.applicationError = false) :
    updateSpanWithOutboundError s (some r) none = (s, none) := by
  simp [updateSpanWithOutboundError, hr]

theorem updateSpanWithOutboundError_snd (s : Span) (res : Option Response)
    (err : Option GoError) :
    (updateSpanWithOutboundError s res err).2 = err := by
  cases err with
  | none =>
    cases res with
    | none => rfl
    | some r =>
      cases hr : r.applicationError
      · rw [updateSpanWithOutboundError_ok_noflag s r hr]
      · rw [updateSpanWithOutboundError_ok_flag s r hr]
  | some e =>
    cases e with
    | status c msg => rw [updateSpanWithOutboundError_status]
    | raw msg =>
      cases res with
      | none => rfl
      | some r =>
        cases hr : r.applicationError
        · rw [updateSpanWithOutboundError_raw_noflag s r msg hr]
        · rw [updateSpanWithOutboundError_raw_flag s r msg hr]

theorem statusTagged_updateSpanWithError (s : Span) (c : Code) (msg : String) :
    statusTagged (updateSpanWithError s (some (GoError.status c msg))).1.finish c := by
  simp [updateSpanWithError_status, statusTagged, Span.finish, Span.setTag,
    extErrorSet]

theorem statusTagged_updateSpanWithOutboundError (s : Span)
    (res : Option Response) (c : Code) (msg : String) :
    statusTagged
      (updateSpanWithOutboundError s res (some (GoError.status c msg))).1.finish
      c := by
  simp [updateSpanWithOutboundError_status, statusTagged, Span.finish,
    Span.setTag, extErrorSet]

/-! Unfolding equations for the entry points, given a non-nil tracer. -/

theorem V1.Handle_eq (m : Interceptor) (tracer : Tracer)
    (hm : m.tracer = some tracer) (req : Request)
    (h : Request → Option GoError) :
    V1.Handle m req h =
      (let span := extractOpenTracingSpanDo tracer
        (tracer.extract m.propagationFormat
          (getPropagationCarrier req.headers req.transport)) req.transport []
       let p := updateSpanWithError span (h req)
       some (p.1.finish, p.2)) := by
  unfold V1.Handle
  rw [hm]

theorem V1.HandleOneway_eq (m : Interceptor) (tracer : Tracer)
    (hm : m.tracer = some tracer) (req : Request)
    (h : Request → Option GoError) :
    V1.HandleOneway m req h =
      (let span := extractOpenTracingSpanDo tracer
        (tracer.extract m.propagationFormat
          (getPropagationCarrier req.headers req.transport)) req.transport []
       let p := updateSpanWithError span (h req)
       some (p.1.finish, p.2)) := by
  unfold V1.HandleOneway
  rw [hm]

theorem V1.HandleStream_eq (m : Interceptor) (tracer : Tracer)
    (hm : m.tracer = some tracer) (s : ServerStream)
    (h : ServerStream → Option GoError) :
    V1.HandleStream m s h =
      (let span := extractOpenTracingSpanDo tracer
        (tracer.extract m.propagationFormat
          (getPropagationCarrier s.req.meta.headers s.req.meta.transport))
        s.req.meta.transport []
       let p := updateSpanWithError span (h s)
       some (p.1.finish, p.2)) := by
  unfold V1.HandleStream
  rw [hm]

theorem V1.Call_eq_injectFail (m : Interceptor) (tracer : Tracer)
    (hm : m.tracer = some tracer) (req : Request)
    (out : Request → Option Response × Option GoError) (e : GoError)
    (hi : (tracer.inject (createOpenTracingSpanDo tracer m.transport []).context
            m.propagationFormat (getPropagationCarrier [] m.transport)).2 =
          some e) :
    V1.Call m req out =
      (let span := createOpenTracingSpanDo tracer m.transport []
       let span := (extErrorSet span true).logFields
         [("event", "error"), ("message", e.message)]
       some { span := span.finish, res := none, err := some e
              downstreamInvoked := false }) := by
  unfold V1.Call
  rw [hm]
  simp only [hi]

theorem V1.Call_eq_injectOK (m : Interceptor) (tracer : Tracer)
    (hm : m.tracer = some tracer) (req : Request)
    (out : Request → Option Response × Option GoError)
    (hi : (tracer.inject (createOpenTracingSpanDo tracer m.transport []).context
            m.propagationFormat (getPropagationCarrier [] m.transport)).2 =
          none) :
    V1.Call m req out =
      (let span := createOpenTracingSpanDo tracer m.transport []
       let injected := tracer.inject span.context m.propagationFormat
         (getPropagationCarrier [] m.transport)
       let req2 : Request :=
         { req with headers := headersWithAll req.headers injected.1 }
       let p := updateSpanWithOutboundError span (out req2).1 (out req2).2
       some { span := p.1.finish, res := (out req2).1, err := p.2
              downstreamInvoked := true }) := by
  unfold V1.Call
  rw [hm]
  simp only [hi]

theorem V1.CallOneway_eq_injectFail (m : Interceptor) (tracer : Tracer)
    (hm : m.tracer = some tracer) (req : Request)
    (out : Request → Option Ack × Option GoError) (e : GoError)
    (hi : (tracer.inject (createOpenTracingSpanDo tracer m.transport []).context
            m.propagationFormat (getPropagationCarrier [] m.transport)).2 =
          some e) :
    V1.CallOneway m req out =
      (let span := createOpenTracingSpanDo tracer m.transport []
       let span := (extErrorSet span true).logFields
         [("event", "error"), ("message", e.message)]
       some { span := span.finish, ack := none, err := some e
              downstreamInvoked := false }) := by
  unfold V1.CallOneway
  rw [hm]
  simp only [hi]

theorem V1.CallOneway_eq_injectOK (m : Interceptor) (tracer : Tracer)
    (hm : m.tracer = some tracer) (req : Request)
    (out : Request → Option Ack × Option GoError)
    (hi : (tracer.inject (createOpenTracingSpanDo tracer m.transport []).context
            m.propagationFormat (getPropagationCarrier [] m.transport)).2 =
          none) :
    V1.CallOneway m req out =
      (let span := createOpenTracingSpanDo tracer m.transport []
       let injected := tracer.inject span.context m.propagationFormat
         (getPropagationCarrier [] m.transport)
       let req2 : Request :=
         { req with headers := headersWithAll req.headers injected.1 }
       let p := updateSpanWithError span (out req2).2
       some { span := p.1.finish, ack := (out req2).1, err := p.2
              downstreamInvoked := true }) := by
  unfold V1.CallOneway
  rw [hm]
  simp only [hi]

theorem V1.CallStream_eq_injectFail (m : Interceptor) (tracer : Tracer)
    (hm : m.tracer = some tracer) (req : StreamRequest)
    (out : StreamRequest → Option ClientStream × Option GoError) (e : GoError)
    (hi : (tracer.inject (createOpenTracingSpanDo tracer m.transport []).context
            m.propagationFormat (getPropagationCarrier [] m.transport)).2 =
          some e) :
    V1.CallStream m req out =
      (let span := createOpenTracingSpanDo tracer m.transport []
       let span := (extErrorSet span true).logFields
         [("event", "error"), ("message", e.message)]
       some { span := span.finish, stream := none, err := some e
              downstreamInvoked := false }) := by
  unfold V1.CallStream
  rw [hm]
  simp only [hi]

theorem V1.CallStream_eq_injectOK (m : Interceptor) (tracer : Tracer)
    (hm : m.tracer = some tracer) (req : StreamRequest)
    (out : StreamRequest → Option ClientStream × Option GoError)
    (hi : (tracer.inject (createOpenTracingSpanDo tracer m.transport []).context
            m.propagationFormat (getPropagationCarrier [] m.transport)).2 =
          none) :
    V1.CallStream m req out =
      (let span := createOpenTracingSpanDo tracer m.transport []
       let injected := tracer.inject span.context m.propagationFormat
         (getPropagationCarrier [] m.transport)
       let req2 : StreamRequest :=
         { req with meta :=
             { req.meta with
                 headers := headersWithAll req.meta.headers injected.1 } }
       let p := updateSpanWithError span (out req2).2
       some { span := p.1.finish, stream := (out req2).1, err := p.2
              downstreamInvoked := true }) := by
  unfold V1.CallStream
  rw [hm]
  simp only [hi]

theorem V2.HandlePooled_eq (m : Interceptor) (tracer : Tracer)
    (hm : m.tracer = some tracer) (req : Request) (resw : V2.ResponseWriter)
    (h : Request → List V2.WriterAction) (herr : Request → Option GoError)
    (pool : List V2.Writer) :
    V2.Handle m req resw h herr pool =
      (let span := extractOpenTracingSpanDo tracer
        (tracer.extract m.propagationFormat
          (getPropagationCarrier req.headers req.transport)) req.transport
        V2.CommonTracingTags
       let acquired := V2.newWriter pool resw
       let wrappedWriter := V2.applyActions acquired.1 (h req)
       let span :=
         if wrappedWriter.isApplicationError then
           span.setTag "error.type" (TagValue.str "application_error")
         else span
       let p := updateSpanWithError span (herr req)
       some (p.1.finish, p.2, wrappedWriter.free acquired.2)) := by
  unfold V2.Handle
  rw [hm]

theorem V2.CallPooled_eq_injectFail (m : Interceptor) (tracer : Tracer)
    (hm : m.tracer = some tracer) (req : Request)
    (out : Request → Option Response × Option GoError) (e : GoError)
    (hi : (tracer.inject
            (createOpenTracingSpanDo tracer m.transport V2.CommonTracingTags).context
            m.propagationFormat (getPropagationCarrier [] m.transport)).2 =
          some e) :
    V2.Call m req out =
      (let span := createOpenTracingSpanDo tracer m.transport V2.CommonTracingTags
       let span := (extErrorSet span true).logFields
         [("event", "error"), ("message", e.message)]
       some { span := span.finish, res := none, err := some e
              downstreamInvoked := false }) := by
  unfold V2.Call
  rw [hm]
  simp only [hi]

theorem V2.CallPooled_eq_injectOK (m : Interceptor) (tracer : Tracer)
    (hm : m.tracer = some tracer) (req : Request)
    (out : Request → Option Response × Option GoError)
    (hi : (tracer.inject
            (createOpenTracingSpanDo tracer m.transport V2.CommonTracingTags).context
            m.propagationFormat (getPropagationCarrier [] m.transport)).2 =
          none) :
    V2.Call m req out =
      (let span := createOpenTracingSpanDo tracer m.transport V2.CommonTracingTags
       let injected := tracer.inject span.context m.propagationFormat
         (getPropagationCarrier [] m.transport)
       let req2 : Request :=
         { req with headers := headersWithAll req.headers injected.1 }
       let p := updateSpanWithOutboundError span (out req2).1 (out req2).2
       some { span := p.1.finish, res := (out req2).1, err := p.2
              downstreamInvoked := true }) := by
  unfold V2.Call
  rw [hm]
  simp only [hi]

/-! Claim theorems. -/

/-- C1: for every call, in every call shape (unary, oneway, stream) and
direction (inbound, outbound), if the outcome error satisfies the
structured-status check then the span is tagged `error=true` and both
`rpc.yarpc.status_code` and `error.type` equal the string form of the
status code. -/
theorem C1_status_tags_all_shapes (m : Interceptor) (tracer : Tracer)
    (hm : m.tracer = some tracer)
    (hinj : ∀ ctx fmt carr, (tracer.inject ctx fmt carr).2 = none)
    (c : Code) (msg : String) :
    (∀ req h, h req = some (GoError.status c msg) →
      ∃ span ret, V1.Handle m req h = some (span, ret) ∧ statusTagged span c) ∧
    (∀ req h, h req = some (GoError.status c msg) →
      ∃ span ret, V1.HandleOneway m req h = some (span, ret) ∧
        statusTagged span c) ∧
    (∀ s h, h s = some (GoError.status c msg) →
      ∃ span ret, V1.HandleStream m s h = some (span, ret) ∧
        statusTagged span c) ∧
    (∀ req out, (∀ r, (out r).2 = some (GoError.status c msg)) →
      ∃ o, V1.Call m req out = some o ∧ statusTagged o.span c) ∧
    (∀ req out, (∀ r, (out r).2 = some (GoError.status c msg)) →
      ∃ o, V1.CallOneway m req out = some o ∧ statusTagged o.span c) ∧
    (∀ req out, (∀ r, (out r).2 = some (GoError.status c msg)) →
      ∃ o, V1.CallStream m req out = some o ∧ statusTagged o.span c) := by
  refine ⟨?_, ?_, ?_, ?_, ?_, ?_⟩
  · intro req h hh
    rw [V1.Handle_eq m tracer hm req h]
    simp only [hh]
    exact ⟨_, _, rfl, statusTagged_updateSpanWithError _ c msg⟩
  · intro req h hh
    rw [V1.HandleOneway_eq m tracer hm req h]
    simp only [hh]
    exact ⟨_, _, rfl, statusTagged_updateSpanWithError _ c msg⟩
  · intro s h hh
    rw [V1.HandleStream_eq m tracer hm s h]
    simp only [hh]
    exact ⟨_, _, rfl, statusTagged_updateSpanWithError _ c msg⟩
  · intro req out hout
    rw [V1.Call_eq_injectOK m tracer hm req out (hinj _ _ _)]
    simp only [hout]
    exact ⟨_, rfl, statusTagged_updateSpanWithOutboundError _ _ c msg⟩
  · intro req out hout
    rw [V1.CallOneway_eq_injectOK m tracer hm req out (hinj _ _ _)]
    simp only [hout]
    exact ⟨_, rfl, statusTagged_updateSpanWithError _ c msg⟩
  · intro req out hout
    rw [V1.CallStream_eq_injectOK m tracer hm req out (hinj _ _ _)]
    simp only [hout]
    exact ⟨_, rfl, statusTagged_updateSpanWithError _ c msg⟩

/-- C1 witness: the inbound-unary and outbound-unary conclusions at a
concrete interceptor, request, status code and handlers, with every
hypothesis discharged concretely. -/
theorem C1_status_tags_witness :
    mOK.tracer = some tracerOK ∧
    (∀ ctx fmt carr, (tracerOK.inject ctx fmt carr).2 = none) ∧
    hStatus req0 = some (GoError.status code0 "boom") ∧
    (∀ r, (outStatus r).2 = some (GoError.status code0 "boom")) ∧
    (∃ span ret, V1.Handle mOK req0 hStatus = some (span, ret) ∧
      statusTagged span code0) ∧
    (∃ o, V1.Call mOK req0 outStatus = some o ∧ statusTagged o.span code0) :=
  ⟨rfl, fun _ _ _ => rfl, rfl, fun _ => rfl,
   (C1_status_tags_all_shapes mOK tracerOK rfl (fun _ _ _ => rfl) code0
      "boom").1 req0 hStatus rfl,
   (C1_status_tags_all_shapes mOK tracerOK rfl (fun _ _ _ => rfl) code0
      "boom").2.2.2.1 req0 outStatus (fun _ => rfl)⟩

/-- C2 counterexample: an outbound unary call whose downstream returns a
raw (non-status) error together with a response whose application-error
flag is set gets `error.type=application_error`, not the
`unknown_internal_yarpc` sentinel — the application-error classification
does override the raw-error classification. -/
theorem C2_counterexample :
    V1.Call mOK req0 outRawApp =
      some { span := { parent := none, context := ⟨1⟩
                       tags := [("transport", TagValue.str "http"),
                                ("error", TagValue.boolean true),
                                ("error.type", TagValue.str "application_error")]
                       logs := [], finishCount := 1 }
             res := some { applicationError := true }
             err := some (GoError.raw "boom"), downstreamInvoked := true } ∧
    ("error.type", TagValue.str "unknown_internal_yarpc") ∉
      [("transport", TagValue.str "http"), ("error", TagValue.boolean true),
       ("error.type", TagValue.str "application_error")] := by
  exact ⟨rfl, by decide⟩

/-- C2 as amended: for an outbound unary call with a non-nil raw
(non-status) error, the sentinel `unknown_internal_yarpc` is used only
when the response is nil or its application-error flag is false; when the
flag is true the application-error classification applies instead. -/
theorem C2_raw_error_tagging (m : Interceptor) (tracer : Tracer)
    (hm : m.tracer = some tracer)
    (hinj : ∀ ctx fmt carr, (tracer.inject ctx fmt carr).2 = none)
    (msg : String) :
    (∀ req out res0, (∀ r, out r = (res0, some (GoError.raw msg))) →
      (∀ r0, res0 = some r0 → r0.applicationError = false) →
      ∃ o, V1.Call m req out = some o ∧ o.err = some (GoError.raw msg) ∧
        ("error", TagValue.boolean true) ∈ o.span.tags ∧
        ("error.type", TagValue.str "unknown_internal_yarpc") ∈ o.span.tags) ∧
    (∀ req out r0, (∀ r, out r = (some r0, some (GoError.raw msg))) →
      r0.applicationError = true →
      ∃ o, V1.Call m req out = some o ∧ o.err = some (GoError.raw msg) ∧
        ("error", TagValue.boolean true) ∈ o.span.tags ∧
        ("error.type", TagValue.str "application_error") ∈ o.span.tags) := by
  constructor
  · intro req out res0 hout hres
    rw [V1.Call_eq_injectOK m tracer hm req out (hinj _ _ _)]
    simp only [hout]
    cases res0 with
    | none =>
      rw [updateSpanWithOutboundError_raw_none]
      exact ⟨_, rfl, rfl, by simp [Span.setTag, extErrorSet, Span.finish],
        by simp [Span.setTag, extErrorSet, Span.finish]⟩
    | some r0 =>
      rw [updateSpanWithOutboundError_raw_noflag _ r0 msg (hres r0 rfl)]
      exact ⟨_, rfl, rfl, by simp [Span.setTag, extErrorSet, Span.finish],
        by simp [Span.setTag, extErrorSet, Span.finish]⟩
  · intro req out r0 hout hr
    rw [V1.Call_eq_injectOK m tracer hm req out (hinj _ _ _)]
    simp only [hout]
    rw [updateSpanWithOutboundError_raw_flag _ r0 msg hr]
    exact ⟨_, rfl, rfl, by simp [Span.setTag, extErrorSet, Span.finish],
      by simp [Span.setTag, extErrorSet, Span.finish]⟩

/-- C2 witness: both amended branches at concrete inputs, hypotheses
discharged concretely. -/
theorem C2_raw_error_tagging_witness :
    mOK.tracer = some tracerOK ∧
    (∀ r, outRaw r = (none, some (GoError.raw "boom"))) ∧
    (∀ r, outRawApp r =
      (some { applicationError := true }, some (GoError.raw "boom"))) ∧
    (∃ o, V1.Call mOK req0 outRaw = some o ∧
      o.err = some (GoError.raw "boom") ∧
      ("error", TagValue.boolean true) ∈ o.span.tags ∧
      ("error.type", TagValue.str "unknown_internal_yarpc") ∈ o.span.tags) ∧
    (∃ o, V1.Call mOK req0 outRawApp = some o ∧
      o.err = some (GoError.raw "boom") ∧
      ("error", TagValue.boolean true) ∈ o.span.tags ∧
      ("error.type", TagValue.str "application_error") ∈ o.span.tags) :=
  ⟨rfl, fun _ => rfl, fun _ => rfl,
   (C2_raw_error_tagging mOK tracerOK rfl (fun _ _ _ => rfl) "boom").1 req0
     outRaw none (fun _ => rfl) (fun _ h => by cases h),
   (C2_raw_error_tagging mOK tracerOK rfl (fun _ _ _ => rfl) "boom").2 req0
     outRawApp { applicationError := true } (fun _ => rfl) rfl⟩

/-- C3 counterexample: when injection fails on an outbound unary call the
span gets `error=true` and the error log fields, but no `error.type` tag
at all — in particular not `unknown_internal_yarpc` as the claim states. -/
theorem C3_counterexample :
    V1.Call mInjFail req0 outOK =
      some { span := { parent := none, context := ⟨2⟩
                       tags := [("transport", TagValue.str "http"),
                                ("error", TagValue.boolean true)]
                       logs := [("event", "error"), ("message", "inject fail")]
                       finishCount := 1 }
             res := none, err := some (GoError.raw "inject fail")
             downstreamInvoked := false } ∧
    ("error.type", TagValue.str "unknown_internal_yarpc") ∉
      [("transport", TagValue.str "http"), ("error", TagValue.boolean true)] := by
  exact ⟨rfl, by decide⟩

/-- C3 as amended: for every outbound call (unary, oneway, stream) where
injection fails, the span is tagged `error=true` and receives the
`event=error`/`message` log fields, and no `error.type` tag of any value
is set. -/
theorem C3_inject_failure_span_tags (m : Interceptor) (tracer : Tracer)
    (e : GoError) (hm : m.tracer = some tracer)
    (hinj : ∀ ctx fmt carr, (tracer.inject ctx fmt carr).2 = some e) :
    (∀ req out, ∃ o, V1.Call m req out = some o ∧ o.err = some e ∧
      ("error", TagValue.boolean true) ∈ o.span.tags ∧
      (∀ v, ("error.type", v) ∉ o.span.tags) ∧
      o.span.logs = [("event", "error"), ("message", e.message)]) ∧
    (∀ req out, ∃ o, V1.CallOneway m req out = some o ∧ o.err = some e ∧
      ("error", TagValue.boolean true) ∈ o.span.tags ∧
      (∀ v, ("error.type", v) ∉ o.span.tags) ∧
      o.span.logs = [("event", "error"), ("message", e.message)]) ∧
    (∀ req out, ∃ o, V1.CallStream m req out = some o ∧ o.err = some e ∧
      ("error", TagValue.boolean true) ∈ o.span.tags ∧
      (∀ v, ("error.type", v) ∉ o.span.tags) ∧
      o.span.logs = [("event", "error"), ("message", e.message)]) := by
  refine ⟨?_, ?_, ?_⟩
  · intro req out
    rw [V1.Call_eq_injectFail m tracer hm req out e (hinj _ _ _)]
    refine ⟨_, rfl, rfl, ?_, ?_, rfl⟩
    · simp [Span.finish, Span.logFields, Span.setTag, extErrorSet,
        createOpenTracingSpanDo]
    · intro v
      simp [Span.finish, Span.logFields, Span.setTag, extErrorSet,
        createOpenTracingSpanDo]
  · intro req out
    rw [V1.CallOneway_eq_injectFail m tracer hm req out e (hinj _ _ _)]
    refine ⟨_, rfl, rfl, ?_, ?_, rfl⟩
    · simp [Span.finish, Span.logFields, Span.setTag, extErrorSet,
        createOpenTracingSpanDo]
    · intro v
      simp [Span.finish, Span.logFields, Span.setTag, extErrorSet,
        createOpenTracingSpanDo]
  · intro req out
    rw [V1.CallStream_eq_injectFail m tracer hm req out e (hinj _ _ _)]
    refine ⟨_, rfl, rfl, ?_, ?_, rfl⟩
    · simp [Span.finish, Span.logFields, Span.setTag, extErrorSet,
        createOpenTracingSpanDo]
    · intro v
      simp [Span.finish, Span.logFields, Span.setTag, extErrorSet,
        createOpenTracingSpanDo]

/-- C3 witness: the amended unary conclusion at a concrete interceptor
whose tracer always fails injection. -/
theorem C3_inject_failure_span_tags_witness :
    mInjFail.tracer = some tracerInjFail ∧
    (∀ ctx fmt carr, (tracerInjFail.inject ctx fmt carr).2 =
      some (GoError.raw "inject fail")) ∧
    (∃ o, V1.Call mInjFail req0 outOK = some o ∧
      o.err = some (GoError.raw "inject fail") ∧
      ("error", TagValue.boolean true) ∈ o.span.tags ∧
      (∀ v, ("error.type", v) ∉ o.span.tags) ∧
      o.span.logs = [("event", "error"), ("message", "inject fail")]) :=
  ⟨rfl, fun _ _ _ => rfl,
   (C3_inject_failure_span_tags mInjFail tracerInjFail (GoError.raw "inject fail")
      rfl (fun _ _ _ => rfl)).1 req0 outOK⟩

/-- C4: for every outbound call shape, when the tracer's inject step
fails, the downstream outbound is never invoked, the span is marked
errored and finished exactly once, and the caller receives exactly the
injection error. -/
theorem C4_inject_failure_short_circuit (m : Interceptor) (tracer : Tracer)
    (e : GoError) (hm : m.tracer = some tracer)
    (hinj : ∀ ctx fmt carr, (tracer.inject ctx fmt carr).2 = some e) :
    (∀ req out, ∃ o, V1.Call m req out = some o ∧
      o.downstreamInvoked = false ∧ o.err = some e ∧
      o.span.finishCount = 1 ∧ ("error", TagValue.boolean true) ∈ o.span.tags) ∧
    (∀ req out, ∃ o, V1.CallOneway m req out = some o ∧
      o.downstreamInvoked = false ∧ o.err = some e ∧
      o.span.finishCount = 1 ∧ ("error", TagValue.boolean true) ∈ o.span.tags) ∧
    (∀ req out, ∃ o, V1.CallStream m req out = some o ∧
      o.downstreamInvoked = false ∧ o.err = some e ∧
      o.span.finishCount = 1 ∧ ("error", TagValue.boolean true) ∈ o.span.tags) := by
  refine ⟨?_, ?_, ?_⟩
  · intro req out
    rw [V1.Call_eq_injectFail m tracer hm req out e (hinj _ _ _)]
    exact ⟨_, rfl, rfl, rfl, rfl,
      by simp [Span.finish, Span.logFields, Span.setTag, extErrorSet,
        createOpenTracingSpanDo]⟩
  · intro req out
    rw [V1.CallOneway_eq_injectFail m tracer hm req out e (hinj _ _ _)]
    exact ⟨_, rfl, rfl, rfl, rfl,
      by simp [Span.finish, Span.logFields, Span.setTag, extErrorSet,
        createOpenTracingSpanDo]⟩
  · intro req out
    rw [V1.CallStream_eq_injectFail m tracer hm req out e (hinj _ _ _)]
    exact ⟨_, rfl, rfl, rfl, rfl,
      by simp [Span.finish, Span.logFields, Span.setTag, extErrorSet,
        createOpenTracingSpanDo]⟩

/-- C4 witness: the short-circuit conclusion for all three outbound call
shapes at a concrete failing-injection interceptor. -/
theorem C4_inject_failure_short_circuit_witness :
    mInjFail.tracer = some tracerInjFail ∧
    (∀ ctx fmt carr, (tracerInjFail.inject ctx fmt carr).2 =
      some (GoError.raw "inject fail")) ∧
    (∃ o, V1.Call mInjFail req0 outOK = some o ∧
      o.downstreamInvoked = false ∧ o.err = some (GoError.raw "inject fail") ∧
      o.span.finishCount = 1 ∧ ("error", TagValue.boolean true) ∈ o.span.tags) ∧
    (∃ o, V1.CallOneway mInjFail req0 outOnewayOK = some o ∧
      o.downstreamInvoked = false ∧ o.err = some (GoError.raw "inject fail") ∧
      o.span.finishCount = 1 ∧ ("error", TagValue.boolean true) ∈ o.span.tags) ∧
    (∃ o, V1.CallStream mInjFail sreq0 outStreamOK = some o ∧
      o.downstreamInvoked = false ∧ o.err = some (GoError.raw "inject fail") ∧
      o.span.finishCount = 1 ∧ ("error", TagValue.boolean true) ∈ o.span.tags) :=
  ⟨rfl, fun _ _ _ => rfl,
   (C4_inject_failure_short_circuit mInjFail tracerInjFail
      (GoError.raw "inject fail") rfl (fun _ _ _ => rfl)).1 req0 outOK,
   (C4_inject_failure_short_circuit mInjFail tracerInjFail
      (GoError.raw "inject fail") rfl (fun _ _ _ => rfl)).2.1 req0 outOnewayOK,
   (C4_inject_failure_short_circuit mInjFail tracerInjFail
      (GoError.raw "inject fail") rfl (fun _ _ _ => rfl)).2.2 sreq0 outStreamOK⟩

/-- C5: for every outbound unary call (both implementations) where the
downstream returns no error and a response flagged as an application
error, the span is tagged `error=true` with
`error.type=application_error`, and the caller receives a nil error and
that response. -/
theorem C5_application_error_tagging (m : Interceptor) (tracer : Tracer)
    (hm : m.tracer = some tracer)
    (hinj : ∀ ctx fmt carr, (tracer.inject ctx fmt carr).2 = none) :
    (∀ req out r0, (∀ r, out r = (some r0, none)) →
      r0.applicationError = true →
      ∃ o, V1.Call m req out = some o ∧ o.err = none ∧ o.res = some r0 ∧
        ("error", TagValue.boolean true) ∈ o.span.tags ∧
        ("error.type", TagValue.str "application_error") ∈ o.span.tags) ∧
    (∀ req out r0, (∀ r, out r = (some r0, none)) →
      r0.applicationError = true →
      ∃ o, V2.Call m req out = some o ∧ o.err = none ∧ o.res = some r0 ∧
        ("error", TagValue.boolean true) ∈ o.span.tags ∧
        ("error.type", TagValue.str "application_error") ∈ o.span.tags) := by
  constructor
  · intro req out r0 hout hr
    rw [V1.Call_eq_injectOK m tracer hm req out (hinj _ _ _)]
    simp only [hout]
    rw [updateSpanWithOutboundError_ok_flag _ r0 hr]
    exact ⟨_, rfl, rfl, rfl, by simp [Span.setTag, extErrorSet, Span.finish],
      by simp [Span.setTag, extErrorSet, Span.finish]⟩
  · intro req out r0 hout hr
    rw [V2.CallPooled_eq_injectOK m tracer hm req out (hinj _ _ _)]
    simp only [hout]
    rw [updateSpanWithOutboundError_ok_flag _ r0 hr]
    exact ⟨_, rfl, rfl, rfl, by simp [Span.setTag, extErrorSet, Span.finish],
      by simp [Span.setTag, extErrorSet, Span.finish]⟩

/-- C5 witness: the application-error conclusion of both implementations
at concrete inputs. -/
theorem C5_application_error_tagging_witness :
    mOK.tracer = some tracerOK ∧
    (∀ r, outAppErr r = (some { applicationError := true }, none)) ∧
    (∃ o, V1.Call mOK req0 outAppErr = some o ∧ o.err = none ∧
      o.res = some { applicationError := true } ∧
      ("error", TagValue.boolean true) ∈ o.span.tags ∧
      ("error.type", TagValue.str "application_error") ∈ o.span.tags) ∧
    (∃ o, V2.Call mOK req0 outAppErr = some o ∧ o.err = none ∧
      o.res = some { applicationError := true } ∧
      ("error", TagValue.boolean true) ∈ o.span.tags ∧
      ("error.type", TagValue.str "application_error") ∈ o.span.tags) :=
  ⟨rfl, fun _ => rfl,
   (C5_application_error_tagging mOK tracerOK rfl (fun _ _ _ => rfl)).1 req0
     outAppErr { applicationError := true } (fun _ => rfl) rfl,
   (C5_application_error_tagging mOK tracerOK rfl (fun _ _ _ => rfl)).2 req0
     outAppErr { applicationError := true } (fun _ => rfl) rfl⟩

/-! Preservation lemmas for the span-lifecycle claims. -/

theorem updateSpanWithError_fst_finishCount (s : Span) (e : Option GoError) :
    (updateSpanWithError s e).1.finishCount = s.finishCount := by
  cases e with
  | none => rfl
  | some e => cases e <;> rfl

theorem updateSpanWithError_fst_parent (s : Span) (e : Option GoError) :
    (updateSpanWithError s e).1.parent = s.parent := by
  cases e with
  | none => rfl
  | some e => cases e <;> rfl

theorem ite_setTag_finishCount (c : Prop) [Decidable c] (s : Span)
    (k : String) (v : TagValue) :
    (if c then s.setTag k v else s).finishCount = s.finishCount := by
  split <;> rfl

theorem ite_setTag_parent (c : Prop) [Decidable c] (s : Span)
    (k : String) (v : TagValue) :
    (if c then s.setTag k v else s).parent = s.parent := by
  split <;> rfl

/-- C6: every inbound entry point (unary, oneway, stream, and the
pooled-writer unary variant) finishes its span exactly once on every exit
path — for any handler outcome — and the span's parent is exactly what
extraction found, so a root span is created when no parent context exists
in the carrier. -/
theorem C6_span_finished_exactly_once (m : Interceptor) (tracer : Tracer)
    (hm : m.tracer = some tracer) :
    (∀ req h, ∃ span ret, V1.Handle m req h = some (span, ret) ∧
      span.finishCount = 1 ∧
      span.parent = tracer.extract m.propagationFormat
        (getPropagationCarrier req.headers req.transport)) ∧
    (∀ req h, ∃ span ret, V1.HandleOneway m req h = some (span, ret) ∧
      span.finishCount = 1 ∧
      span.parent = tracer.extract m.propagationFormat
        (getPropagationCarrier req.headers req.transport)) ∧
    (∀ s h, ∃ span ret, V1.HandleStream m s h = some (span, ret) ∧
      span.finishCount = 1 ∧
      span.parent = tracer.extract m.propagationFormat
        (getPropagationCarrier s.req.meta.headers s.req.meta.transport)) ∧
    (∀ req resw h herr pool, ∃ span ret pool2,
      V2.Handle m req resw h herr pool = some (span, ret, pool2) ∧
      span.finishCount = 1 ∧
      span.parent = tracer.extract m.propagationFormat
        (getPropagationCarrier req.headers req.transport)) := by
  refine ⟨?_, ?_, ?_, ?_⟩
  · intro req h
    rw [V1.Handle_eq m tracer hm req h]
    refine ⟨_, _, rfl, ?_, ?_⟩
    · simp [Span.finish, updateSpanWithError_fst_finishCount,
        extractOpenTracingSpanDo]
    · simp [Span.finish, updateSpanWithError_fst_parent,
        extractOpenTracingSpanDo]
  · intro req h
    rw [V1.HandleOneway_eq m tracer hm req h]
    refine ⟨_, _, rfl, ?_, ?_⟩
    · simp [Span.finish, updateSpanWithError_fst_finishCount,
        extractOpenTracingSpanDo]
    · simp [Span.finish, updateSpanWithError_fst_parent,
        extractOpenTracingSpanDo]
  · intro s h
    rw [V1.HandleStream_eq m tracer hm s h]
    refine ⟨_, _, rfl, ?_, ?_⟩
    · simp [Span.finish, updateSpanWithError_fst_finishCount,
        extractOpenTracingSpanDo]
    · simp [Span.finish, updateSpanWithError_fst_parent,
        extractOpenTracingSpanDo]
  · intro req resw h herr pool
    rw [V2.HandlePooled_eq m tracer hm req resw h herr pool]
    refine ⟨_, _, _, rfl, ?_, ?_⟩
    · simp [Span.finish, updateSpanWithError_fst_finishCount,
        ite_setTag_finishCount, extractOpenTracingSpanDo]
    · simp [Span.finish, updateSpanWithError_fst_parent,
        ite_setTag_parent, extractOpenTracingSpanDo]

/-- C6 witness: spans finished exactly once at concrete inputs, including
a tracer that finds no parent context (root span) and a handler that
fails. -/
theorem C6_span_finished_exactly_once_witness :
    mNoParent.tracer = some tracerNoParent ∧
    (∃ span ret, V1.Handle mNoParent req0 hStatus = some (span, ret) ∧
      span.finishCount = 1 ∧
      span.parent = tracerNoParent.extract mNoParent.propagationFormat
        (getPropagationCarrier req0.headers req0.transport)) ∧
    (∃ span ret pool2,
      V2.Handle mNoParent req0 resw0 hActsAppErr hNone [] =
        some (span, ret, pool2) ∧
      span.finishCount = 1 ∧
      span.parent = tracerNoParent.extract mNoParent.propagationFormat
        (getPropagationCarrier req0.headers req0.transport)) :=
  ⟨rfl,
   (C6_span_finished_exactly_once mNoParent tracerNoParent rfl).1 req0 hStatus,
   (C6_span_finished_exactly_once mNoParent tracerNoParent rfl).2.2.2 req0
     resw0 hActsAppErr hNone []⟩

/-- C7: in every call shape and direction, the error (and result) the
caller receives is exactly what the downstream handler or outbound call
produced — classification only tags the span and never changes the
returned values. -/
theorem C7_error_passthrough (m : Interceptor) (tracer : Tracer)
    (hm : m.tracer = some tracer)
    (hinj : ∀ ctx fmt carr, (tracer.inject ctx fmt carr).2 = none) :
    (∀ req h, ∃ span, V1.Handle m req h = some (span, h req)) ∧
    (∀ req h, ∃ span, V1.HandleOneway m req h = some (span, h req)) ∧
    (∀ s h, ∃ span, V1.HandleStream m s h = some (span, h s)) ∧
    (∀ req out res0 err0, (∀ r, out r = (res0, err0)) →
      ∃ o, V1.Call m req out = some o ∧ o.err = err0 ∧ o.res = res0) ∧
    (∀ req out ack0 err0, (∀ r, out r = (ack0, err0)) →
      ∃ o, V1.CallOneway m req out = some o ∧ o.err = err0 ∧ o.ack = ack0) ∧
    (∀ req out cs0 err0, (∀ r, out r = (cs0, err0)) →
      ∃ o, V1.CallStream m req out = some o ∧ o.err = err0 ∧
        o.stream = cs0) ∧
    (∀ req resw h herr pool, ∃ span pool2,
      V2.Handle m req resw h herr pool = some (span, herr req, pool2)) := by
  refine ⟨?_, ?_, ?_, ?_, ?_, ?_, ?_⟩
  · intro req h
    rw [V1.Handle_eq m tracer hm req h]
    exact ⟨_, by simp only [updateSpanWithError_snd]; rfl⟩
  · intro req h
    rw [V1.HandleOneway_eq m tracer hm req h]
    exact ⟨_, by simp only [updateSpanWithError_snd]; rfl⟩
  · intro s h
    rw [V1.HandleStream_eq m tracer hm s h]
    exact ⟨_, by simp only [updateSpanWithError_snd]; rfl⟩
  · intro req out res0 err0 hout
    rw [V1.Call_eq_injectOK m tracer hm req out (hinj _ _ _)]
    simp only [hout]
    exact ⟨_, rfl, by rw [updateSpanWithOutboundError_snd], rfl⟩
  · intro req out ack0 err0 hout
    rw [V1.CallOneway_eq_injectOK m tracer hm req out (hinj _ _ _)]
    simp only [hout]
    exact ⟨_, rfl, by rw [updateSpanWithError_snd], rfl⟩
  · intro req out cs0 err0 hout
    rw [V1.CallStream_eq_injectOK m tracer hm req out (hinj _ _ _)]
    simp only [hout]
    exact ⟨_, rfl, by rw [updateSpanWithError_snd], rfl⟩
  · intro req resw h herr pool
    rw [V2.HandlePooled_eq m tracer hm req resw h herr pool]
    exact ⟨_, _, by simp only [updateSpanWithError_snd]; rfl⟩

/-- C7 witness: pass-through of a structured-status handler error and of
an outbound raw error plus response, at concrete inputs. -/
theorem C7_error_passthrough_witness :
    mOK.tracer = some tracerOK ∧
    (∀ ctx fmt carr, (tracerOK.inject ctx fmt carr).2 = none) ∧
    (∀ r, outRawApp r =
      (some { applicationError := true }, some (GoError.raw "boom"))) ∧
    (∃ span, V1.Handle mOK req0 hStatus = some (span, hStatus req0)) ∧
    (∃ o, V1.Call mOK req0 outRawApp = some o ∧
      o.err = some (GoError.raw "boom") ∧
      o.res = some { applicationError := true }) :=
  ⟨rfl, fun _ _ _ => rfl, fun _ => rfl,
   (C7_error_passthrough mOK tracerOK rfl (fun _ _ _ => rfl)).1 req0 hStatus,
   (C7_error_passthrough mOK tracerOK rfl (fun _ _ _ => rfl)).2.2.2.1 req0
     outRawApp (some { applicationError := true }) (some (GoError.raw "boom"))
     (fun _ => rfl)⟩

/-- C8: `New` resolves a nil tracer to the process-wide global tracer at
construction time and stores it, so the interceptor's tracer field is
never nil and every entry point produces a span (none of them hits the
nil-tracer path). -/
theorem C8_constructor_resolves_tracer (p : Params) (g : Tracer) :
    ((New p g).tracer ≠ none) ∧
    (p.tracer = none → (New p g).tracer = some g) ∧
    (∀ t, p.tracer = some t → (New p g).tracer = some t) ∧
    ((New p g).transport = p.transport) ∧
    ((New p g).propagationFormat = getPropagationFormat p.transport) ∧
    (∀ req h, (V1.Handle (New p g) req h).isSome = true) ∧
    (∀ req out, (V1.Call (New p g) req out).isSome = true) ∧
    (∀ req h, (V1.HandleOneway (New p g) req h).isSome = true) ∧
    (∀ req out, (V1.CallOneway (New p g) req out).isSome = true) ∧
    (∀ s h, (V1.HandleStream (New p g) s h).isSome = true) ∧
    (∀ req out, (V1.CallStream (New p g) req out).isSome = true) ∧
    (∀ req resw h herr pool,
      (V2.Handle (New p g) req resw h herr pool).isSome = true) ∧
    (∀ req out, (V2.Call (New p g) req out).isSome = true) := by
  have htr : ∃ t, (New p g).tracer = some t := by
    cases hp : p.tracer with
    | none => exact ⟨g, by simp [New, hp]⟩
    | some t => exact ⟨t, by simp [New, hp]⟩
  obtain ⟨t, ht⟩ := htr
  have hinjSplit : ∀ (α : Type) (x : Option α), x = none ∨ ∃ e, x = some e :=
    fun _ x => by cases x with
      | none => exact Or.inl rfl
      | some e => exact Or.inr ⟨e, rfl⟩
  refine ⟨by rw [ht]; exact fun h => Option.noConfusion h,
    ?_, ?_, ?_, ?_, ?_, ?_, ?_, ?_, ?_, ?_, ?_, ?_⟩
  · intro hp
    simp [New, hp]
  · intro t2 hp
    simp [New, hp]
  · cases hp : p.tracer <;> simp [New, hp]
  · cases hp : p.tracer <;> simp [New, hp]
  · intro req h
    rw [V1.Handle_eq (New p g) t ht req h]
    rfl
  · intro req out
    rcases hinjSplit GoError
        (t.inject (createOpenTracingSpanDo t (New p g).transport []).context
          (New p g).propagationFormat
          (getPropagationCarrier [] (New p g).transport)).2 with hi | ⟨e, hi⟩
    · rw [V1.Call_eq_injectOK (New p g) t ht req out hi]
      rfl
    · rw [V1.Call_eq_injectFail (New p g) t ht req out e hi]
      rfl
  · intro req h
    rw [V1.HandleOneway_eq (New p g) t ht req h]
    rfl
  · intro req out
    rcases hinjSplit GoError
        (t.inject (createOpenTracingSpanDo t (New p g).transport []).context
          (New p g).propagationFormat
          (getPropagationCarrier [] (New p g).transport)).2 with hi | ⟨e, hi⟩
    · rw [V1.CallOneway_eq_injectOK (New p g) t ht req out hi]
      rfl
    · rw [V1.CallOneway_eq_injectFail (New p g) t ht req out e hi]
      rfl
  · intro s h
    rw [V1.HandleStream_eq (New p g) t ht s h]
    rfl
  · intro req out
    rcases hinjSplit GoError
        (t.inject (createOpenTracingSpanDo t (New p g).transport []).context
          (New p g).propagationFormat
          (getPropagationCarrier [] (New p g).transport)).2 with hi | ⟨e, hi⟩
    · rw [V1.CallStream_eq_injectOK (New p g) t ht req out hi]
      rfl
    · rw [V1.CallStream_eq_injectFail (New p g) t ht req out e hi]
      rfl
  · intro req resw h herr pool
    rw [V2.HandlePooled_eq (New p g) t ht req resw h herr pool]
    rfl
  · intro req out
    rcases hinjSplit GoError
        (t.inject
          (createOpenTracingSpanDo t (New p g).transport
            V2.CommonTracingTags).context
          (New p g).propagationFormat
          (getPropagationCarrier [] (New p g).transport)).2 with hi | ⟨e, hi⟩
    · rw [V2.CallPooled_eq_injectOK (New p g) t ht req out hi]
      rfl
    · rw [V2.CallPooled_eq_injectFail (New p g) t ht req out e hi]
      rfl

/-- C8 witness: a nil-tracer `Params` resolves to the supplied global
tracer, and a concrete entry point produces a span. -/
theorem C8_constructor_resolves_tracer_witness :
    ({ tracer := none, transport := "http" } : Params).tracer = none ∧
    (New { tracer := none, transport := "http" } tracerOK).tracer =
      some tracerOK ∧
    (V1.Handle (New { tracer := none, transport := "http" } tracerOK) req0
      hNone).isSome = true :=
  ⟨rfl,
   (C8_constructor_resolves_tracer
      { tracer := none, transport := "http" } tracerOK).2.1 rfl,
   (C8_constructor_resolves_tracer
      { tracer := none, transport := "http" } tracerOK).2.2.2.2.2.1 req0 hNone⟩

/-- C9: every acquisition from the response-observer pool — whatever the
pool's contents, including instances just released after arbitrary use —
yields an instance wrapping the given writer with the application-error
flag false, nil application-error metadata and a zero byte count. -/
theorem C9_pool_reset_on_acquire (pool : List V2.Writer)
    (rw : V2.ResponseWriter) (w : V2.Writer) :
    (V2.newWriter pool rw).1 =
      { responseWriter := rw, isApplicationError := false
        applicationErrorMeta := none, responseSize := 0 } ∧
    (V2.newWriter (w.free pool) rw).1 =
      { responseWriter := rw, isApplicationError := false
        applicationErrorMeta := none, responseSize := 0 } := by
  constructor
  · cases pool <;> rfl
  · rfl

/-! Lemmas on the handler's writer interactions. -/

theorem setApplicationErrorMeta_isApplicationError (w : V2.Writer)
    (meta : Option String) :
    (w.setApplicationErrorMeta meta).isApplicationError =
      w.isApplicationError := by
  cases meta with
  | none => rfl
  | some m =>
    simp only [V2.Writer.setApplicationErrorMeta]
    split <;> rfl

theorem applyActions_isApplicationError_mono (acts : List V2.WriterAction)
    (w : V2.Writer) (hw : w.isApplicationError = true) :
    (V2.applyActions w acts).isApplicationError = true := by
  induction acts generalizing w with
  | nil => exact hw
  | cons a rest ih =>
    cases a with
    | setApplicationError => exact ih _ rfl
    | setApplicationErrorMeta meta =>
      exact ih _ (by rw [setApplicationErrorMeta_isApplicationError]; exact hw)
    | write n => exact ih _ hw

theorem applyActions_isApplicationError_of_mem (acts : List V2.WriterAction)
    (w : V2.Writer) (h : V2.WriterAction.setApplicationError ∈ acts) :
    (V2.applyActions w acts).isApplicationError = true := by
  induction acts generalizing w with
  | nil => cases h
  | cons a rest ih =>
    cases List.mem_cons.mp h with
    | inl ha =>
      cases ha
      exact applyActions_isApplicationError_mono rest _ rfl
    | inr hrest => cases a <;> exact ih _ hrest

/-- C10: in the pooled-writer implementation, when the inbound unary
handler returns no error but called `SetApplicationError` on the wrapped
writer, the span is tagged `error.type=application_error` while the
`error=true` tag is not set, and the caller receives a nil error. -/
theorem C10_app_error_without_error_flag (m : Interceptor) (tracer : Tracer)
    (hm : m.tracer = some tracer) :
    ∀ req resw h herr pool,
      V2.WriterAction.setApplicationError ∈ h req → herr req = none →
      ∃ span pool2, V2.Handle m req resw h herr pool = some (span, none, pool2) ∧
        ("error.type", TagValue.str "application_error") ∈ span.tags ∧
        ("error", TagValue.boolean true) ∉ span.tags := by
  intro req resw h herr pool hmem hne
  rw [V2.HandlePooled_eq m tracer hm req resw h herr pool]
  have happ : (V2.applyActions (V2.newWriter pool resw).1 (h req)).isApplicationError = true :=
    applyActions_isApplicationError_of_mem _ _ hmem
  simp only [happ, hne, updateSpanWithError_none, eq_self_iff_true, if_true]
  refine ⟨_, _, rfl, ?_, ?_⟩
  · simp [Span.finish, Span.setTag, extractOpenTracingSpanDo,
      V2.CommonTracingTags]
  · simp [Span.finish, Span.setTag, extractOpenTracingSpanDo,
      V2.CommonTracingTags]

/-- C10 witness: the conclusion at a concrete interceptor, request,
writer and handler that marks an application error and returns nil. -/
theorem C10_app_error_without_error_flag_witness :
    mOK.tracer = some tracerOK ∧
    V2.WriterAction.setApplicationError ∈ hActsAppErr req0 ∧
    hNone req0 = none ∧
    (∃ span pool2, V2.Handle mOK req0 resw0 hActsAppErr hNone [] =
        some (span, none, pool2) ∧
      ("error.type", TagValue.str "application_error") ∈ span.tags ∧
      ("error", TagValue.boolean true) ∉ span.tags) :=
  ⟨rfl, by decide, rfl,
   C10_app_error_without_error_flag mOK tracerOK rfl req0 resw0 hActsAppErr
     hNone [] (by decide) rfl⟩

end YarpcTracing
